import Mathlib

/-!
Shallow embedding of the request-scheduler module (`util/request-scheduler.js`):
the rate-limit estimator `timeToNextRequest` and the `schedule` wrapper that
acquires a concurrency-pool slot, runs the transport call, and arms a
`setTimeout(resource.release, delay)` timer from the estimator's output.

Modelling conventions:
- Header values are modelled after JS coercion: `date` holds the millisecond
  value `Date.parse(headers.date)` returns, `remaining` the numeric value of
  `x-rate-limit-remaining`, `reset` the numeric value of `x-rate-limit-reset`
  (epoch seconds).  All three are present on a well-formed header object;
  absence of the whole header object (`res.headers` undefined / falsy) and of
  the embedded `res.response` are modelled with `Option`.
- A JS property access on `undefined` (the crash mode of
  `res.headers || res.response.headers`) is an `Except.error JsError.typeError`.
- `setTimeout(resource.release, d)` is recorded as `some d` in the first
  component of `schedule`'s result: `some d` means exactly one release timer
  was armed with delay `d`; `none` means no timer was armed (the slot leaks).
- Logging calls and the `await pool.acquire()` suspension are elided: they do
  not affect the value-level behaviour the claims are about.  The request-id
  counter (`scheduler.requestId++`, run synchronously before the first `await`)
  is modelled separately as state passing.
-/

namespace StormpathMigration

/-- `REQUEST_CONCURRENCY_LIMIT = 100`: the max number of concurrent requests
(the pool size of the scheduler's `ConcurrencyPool`). -/
def REQUEST_CONCURRENCY_LIMIT : Int := 100

/-- A rate-limit header object: the three throttling headers (already coerced
to numbers, see module comment) plus all other header entries, which the
estimator never reads. -/
structure Headers where
  date : Int
  remaining : Int
  reset : Int
  other : List (String × String) := []
deriving DecidableEq

/-- A completed call's outcome object: either a full response or an error.
`headers` is the object's own `headers` property (`none` = absent/falsy);
`response` is the embedded `response` property of an error object
(`none` = absent; `some hs` = present, with its own possibly-absent headers).
`status` and `body` model the remaining response fields, which the estimator
never reads. -/
structure Outcome where
  headers : Option Headers := none
  response : Option (Option Headers) := none
  status : Int := 0
  body : String := ""
deriving DecidableEq

/-- The JS exception raised by a property access on `undefined`. -/
inductive JsError where
  | typeError
deriving DecidableEq

/-- `const headers = res.headers || res.response.headers;` — if `res.headers`
is absent, reading `.headers` of an absent `res.response` throws a TypeError;
if `res.response` is present its `headers` property is used as-is (possibly
itself absent). -/
def headersOf (res : Outcome) : Except JsError (Option Headers) :=
  match res.headers with
  | some h => Except.ok (some h)
  | none =>
    match res.response with
    | some hs => Except.ok hs
    | none => Except.error JsError.typeError

/-- `timeToNextRequest(res)` from the source: pick the header object (dual
shape), return 0 when `remaining > REQUEST_CONCURRENCY_LIMIT + 10`, otherwise
`reset*1000 - Date.parse(date) + 1000`.  Reading a header field of an absent
header object (`headers['x-rate-limit-remaining']` on `undefined`) also throws
a TypeError. -/
def timeToNextRequest (res : Outcome) : Except JsError Int :=
  match headersOf res with
  | Except.error e => Except.error e
  | Except.ok none => Except.error JsError.typeError
  | Except.ok (some h) =>
    if h.remaining > REQUEST_CONCURRENCY_LIMIT + 10 then
      Except.ok 0
    else
      Except.ok (h.reset * 1000 - h.date + 1000)

/-- A value thrown out of `schedule`: either the transport's original error
object, or a TypeError raised by `timeToNextRequest` itself. -/
inductive Thrown where
  | original (e : Outcome)
  | typeError
deriving DecidableEq

/-- The `catch (err)` block of `schedule`: evaluate `timeToNextRequest(err)`;
if it yields a delay, arm the release timer and rethrow the original error;
if it throws, the new TypeError propagates before `setTimeout` runs, so no
timer is armed.  A thrown TypeError object has neither a `headers` nor a
`response` property, so running the estimator on it always throws again. -/
def scheduleCatch (err : Thrown) : Option Int × Except Thrown String :=
  match err with
  | Thrown.typeError => (none, Except.error Thrown.typeError)
  | Thrown.original e =>
    match timeToNextRequest e with
    | Except.ok d => (some d, Except.error (Thrown.original e))
    | Except.error _ => (none, Except.error Thrown.typeError)

/-- The try/catch body of `schedule(scheduler, msg, fn)` after the slot is
acquired, as a function of the transport call's outcome.  First component:
the release timer armed (`some delay`) or not armed (`none`); second: what the
caller observes (parsed body or thrown value). -/
def schedule (outcome : Except Outcome Outcome) : Option Int × Except Thrown String :=
  match outcome with
  | Except.ok res =>
    match timeToNextRequest res with
    | Except.ok d => (some d, Except.ok res.body)
    | Except.error _ => scheduleCatch Thrown.typeError
  | Except.error e => scheduleCatch (Thrown.original e)

/-- The scheduler's mutable state relevant to id assignment. -/
structure SchedulerState where
  requestId : Nat
deriving DecidableEq

/-- `const requestId = scheduler.requestId++;` — runs synchronously before the
first `await` of `schedule`, so it is atomic under the single-threaded event
loop: return the current counter and increment it by one. -/
def takeRequestId (s : SchedulerState) : Nat × SchedulerState :=
  (s.requestId, { requestId := s.requestId + 1 })

/-- The constructor sets `this.requestId = 0`. -/
def RequestScheduler.init : SchedulerState :=
  { requestId := 0 }

/-- The ids handed out by `n` successive verb invocations on a scheduler in
state `s` (each invocation's id assignment is atomic, see `takeRequestId`). -/
def issuedIds (s : SchedulerState) : Nat → List Nat
  | 0 => []
  | Nat.succ n =>
    let p := takeRequestId s
    p.1 :: issuedIds p.2 n

/-- The injected HTTP transport (`this.rp` = request-promise with defaults):
one method per verb, each taking the raw `arguments` list. -/
structure Transport where
  get : List String → Except Outcome Outcome
  put : List String → Except Outcome Outcome
  post : List String → Except Outcome Outcome
  delete : List String → Except Outcome Outcome

/-- `get() { ... return schedule(this, msg, () => this.rp.get.apply(null, arguments)); }` -/
def RequestScheduler.get (rp : Transport) (args : List String) : Option Int × Except Thrown String :=
  schedule (rp.get args)

/-- `put()` wrapper, forwarding `arguments` to `this.rp.put`. -/
def RequestScheduler.put (rp : Transport) (args : List String) : Option Int × Except Thrown String :=
  schedule (rp.put args)

/-- `post()` wrapper, forwarding `arguments` to `this.rp.post`. -/
def RequestScheduler.post (rp : Transport) (args : List String) : Option Int × Except Thrown String :=
  schedule (rp.post args)

/-- `delete()` wrapper, forwarding `arguments` to `this.rp.delete`. -/
def RequestScheduler.delete (rp : Transport) (args : List String) : Option Int × Except Thrown String :=
  schedule (rp.delete args)

/-! ### Concrete inputs used by the code-bug evaluations and counterexamples -/

/-- An error object with no embedded response and no headers, e.g. a
connection-reset failure: neither property is present. -/
def connectionResetError : Outcome := {}

/-- A response whose server reset time is long past the server date header:
`date = 10000` ms, `remaining = 5` (≤ 110, so the formula branch runs),
`reset = 1` epoch second, giving `1*1000 - 10000 + 1000 = -8000` ms. -/
def staleResetResponse : Outcome :=
  { headers := some { date := 10000, remaining := 5, reset := 1 } }

/-! ### Helper lemmas shared between claims -/

/-- When the effective header object is `h`, the estimator succeeds and its
value is the guarded formula. -/
theorem timeToNextRequest_of_headersOf (res : Outcome) (h : Headers)
    (hh : headersOf res = Except.ok (some h)) :
    timeToNextRequest res =
      Except.ok (if h.remaining > REQUEST_CONCURRENCY_LIMIT + 10 then 0
                 else h.reset * 1000 - h.date + 1000) := by
  unfold timeToNextRequest
  rw [hh]
  show (if h.remaining > REQUEST_CONCURRENCY_LIMIT + 10 then Except.ok 0
        else Except.ok (h.reset * 1000 - h.date + 1000)) =
      Except.ok (if h.remaining > REQUEST_CONCURRENCY_LIMIT + 10 then (0 : Int)
        else h.reset * 1000 - h.date + 1000)
  split <;> rfl

/-- The outcome object `schedule` hands to the estimator: the response on
success, the error object on failure. -/
def outcomeValue (o : Except Outcome Outcome) : Outcome :=
  match o with
  | Except.ok res => res
  | Except.error e => e

/-- Whenever `schedule` arms a release timer, the delay is exactly the value
the estimator computed on the outcome object. -/
theorem schedule_armed_delay (o : Except Outcome Outcome) (d : Int)
    (hd : (schedule o).1 = some d) :
    timeToNextRequest (outcomeValue o) = Except.ok d := by
  cases o with
  | ok res =>
    show timeToNextRequest res = Except.ok d
    cases htt : timeToNextRequest res with
    | ok d0 =>
      simp [schedule, htt] at hd
      rw [hd]
    | error e =>
      simp [schedule, htt, scheduleCatch] at hd
  | error e =>
    show timeToNextRequest e = Except.ok d
    cases htt : timeToNextRequest e with
    | ok d0 =>
      simp [schedule, scheduleCatch, htt] at hd
      rw [hd]
    | error e0 =>
      simp [schedule, scheduleCatch, htt] at hd

/-! ### Claim theorems -/

/-- C2: the estimator, applied to an input with neither a `headers` field nor
an embedded `response` (a connection-reset error), does not return 0: the
access `res.response.headers` throws a TypeError. -/
theorem timeToNextRequest_crashes_on_headerless_input :
    timeToNextRequest connectionResetError = Except.error JsError.typeError :=
  rfl

/-- C1: on a transport failure whose error object carries no headers at all,
`schedule` arms no release timer (first component `none`): the estimator's
TypeError propagates out of the catch block before `setTimeout` runs, so the
acquired slot is never released. -/
theorem schedule_leaks_slot_on_headerless_error :
    schedule (Except.error connectionResetError) =
      (none, Except.error Thrown.typeError) :=
  rfl

/-- C7: on a transport failure whose error object carries no headers, the
caller does not receive the original error object: a TypeError raised by the
estimator propagates instead. -/
theorem schedule_replaces_original_error_with_typeError :
    (schedule (Except.error connectionResetError)).2 = Except.error Thrown.typeError ∧
      Thrown.typeError ≠ Thrown.original connectionResetError :=
  ⟨rfl, by decide⟩

/-- C4: for every header set whose `x-rate-limit-remaining` exceeds
`REQUEST_CONCURRENCY_LIMIT + 10 = 110`, the estimator returns delay 0. -/
theorem timeToNextRequest_zero_on_headroom (h : Headers)
    (hrem : h.remaining > REQUEST_CONCURRENCY_LIMIT + 10) :
    timeToNextRequest { headers := some h } = Except.ok 0 := by
  rw [timeToNextRequest_of_headersOf { headers := some h } h rfl, if_pos hrem]

/-- Witness for C4: a header set with `remaining = 200 > 110`. -/
theorem timeToNextRequest_zero_on_headroom_witness :
    ({ date := 0, remaining := 200, reset := 7 : Headers }).remaining >
        REQUEST_CONCURRENCY_LIMIT + 10 ∧
      timeToNextRequest { headers := some { date := 0, remaining := 200, reset := 7 } } =
        Except.ok 0 :=
  ⟨by decide, timeToNextRequest_zero_on_headroom { date := 0, remaining := 200, reset := 7 }
      (by decide)⟩

/-- C3: for every header set with `remaining ≤ REQUEST_CONCURRENCY_LIMIT + 10
= 110`, the estimator returns exactly `reset*1000 - parse(date) + 1000`
milliseconds. -/
theorem timeToNextRequest_formula_when_limited (h : Headers)
    (hrem : h.remaining ≤ REQUEST_CONCURRENCY_LIMIT + 10) :
    timeToNextRequest { headers := some h } =
      Except.ok (h.reset * 1000 - h.date + 1000) := by
  rw [timeToNextRequest_of_headersOf { headers := some h } h rfl,
    if_neg (by omega)]

/-- Witness for C3: the spec's scenario, `date` parsing to 0 ms,
`remaining = 5`, `reset = 2` epoch seconds, giving 3000 ms. -/
theorem timeToNextRequest_formula_when_limited_witness :
    ({ date := 0, remaining := 5, reset := 2 : Headers }).remaining ≤
        REQUEST_CONCURRENCY_LIMIT + 10 ∧
      timeToNextRequest { headers := some { date := 0, remaining := 5, reset := 2 } } =
        Except.ok ((2 : Int) * 1000 - 0 + 1000) :=
  ⟨by decide, timeToNextRequest_formula_when_limited { date := 0, remaining := 5, reset := 2 }
      (by decide)⟩

/-- C5 counterexample: the claim "the delay passed to the release timer is
non-negative for every input" is false: on `staleResetResponse` the scheduler
arms the release timer with a delay of `-8000` ms, and no clamping occurs. -/
theorem schedule_passes_negative_delay_to_timer :
    (schedule (Except.ok staleResetResponse)).1 = some (-8000) ∧ (-8000 : Int) < 0 :=
  ⟨rfl, by decide⟩

/-- C5 amended: the delay the scheduler passes to the release timer is
non-negative whenever the outcome's effective headers satisfy
`parse(date) ≤ reset*1000 + 1000`; the code performs no clamping, so outside
that bound the negative value reaches the timer unchanged (see the
counterexample). -/
theorem schedule_armed_delay_nonneg (o : Except Outcome Outcome) (h : Headers) (d : Int)
    (hh : headersOf (outcomeValue o) = Except.ok (some h))
    (hb : h.date ≤ h.reset * 1000 + 1000)
    (hd : (schedule o).1 = some d) :
    0 ≤ d := by
  have htt := schedule_armed_delay o d hd
  rw [timeToNextRequest_of_headersOf (outcomeValue o) h hh] at htt
  have hv : (if h.remaining > REQUEST_CONCURRENCY_LIMIT + 10 then (0 : Int)
      else h.reset * 1000 - h.date + 1000) = d := by
    exact Except.ok.inj htt
  by_cases hc : h.remaining > REQUEST_CONCURRENCY_LIMIT + 10
  · rw [if_pos hc] at hv
    omega
  · rw [if_neg hc] at hv
    omega

/-- Witness for C5 amended: a fresh-reset response (`date = 0`,
`remaining = 5`, `reset = 2`) arms the timer with 3000 ms, which is ≥ 0. -/
theorem schedule_armed_delay_nonneg_witness :
    headersOf (outcomeValue (Except.ok { headers := some { date := 0, remaining := 5, reset := 2 } })) =
        Except.ok (some { date := 0, remaining := 5, reset := 2 }) ∧
      ({ date := 0, remaining := 5, reset := 2 : Headers }).date ≤
        ({ date := 0, remaining := 5, reset := 2 : Headers }).reset * 1000 + 1000 ∧
      (schedule (Except.ok { headers := some { date := 0, remaining := 5, reset := 2 } })).1 =
        some 3000 ∧
      (0 : Int) ≤ 3000 :=
  ⟨rfl, by decide, rfl,
    schedule_armed_delay_nonneg
      (Except.ok { headers := some { date := 0, remaining := 5, reset := 2 } })
      { date := 0, remaining := 5, reset := 2 } 3000 rfl (by decide) rfl⟩

/-- C6 helper: starting from counter value `s`, the `n` issued ids are
`s, s+1, ..., s+n-1`. -/
theorem issuedIds_eq_range' (s n : Nat) :
    issuedIds { requestId := s } n = List.range' s n := by
  induction n generalizing s with
  | zero => rfl
  | succ n ih =>
    show s :: issuedIds { requestId := s + 1 } n = List.range' s (n + 1)
    rw [ih (s + 1), List.range'_succ]

/-- C6: a freshly constructed scheduler (counter = 0) issues exactly the ids
`0, 1, ..., n-1` over any `n` successive invocations — strictly increasing
with no gaps; each id is taken and the counter bumped atomically before the
first suspension point (`takeRequestId`). -/
theorem issuedIds_init_eq_range (n : Nat) :
    issuedIds RequestScheduler.init n = List.range n := by
  rw [List.range_eq_range']
  exact issuedIds_eq_range' 0 n

/-- C8: when the transport call succeeds with a full-response object (which
carries a `headers` field), `schedule` returns the response's parsed `body`
field to the caller, not the full response. -/
theorem schedule_returns_body_on_success (res : Outcome) (h : Headers)
    (hh : res.headers = some h) :
    (schedule (Except.ok res)).2 = Except.ok res.body := by
  have hho : headersOf res = Except.ok (some h) := by
    unfold headersOf
    rw [hh]
  have htt := timeToNextRequest_of_headersOf res h hho
  simp [schedule, htt]

/-- A concrete successful full response used by the C8 witness. -/
def profileResponse : Outcome :=
  { headers := some { date := 0, remaining := 50, reset := 3 },
    status := 200, body := "profile" }

/-- Witness for C8: a concrete successful response whose body is returned. -/
theorem schedule_returns_body_on_success_witness :
    profileResponse.headers = some { date := 0, remaining := 50, reset := 3 } ∧
      (schedule (Except.ok profileResponse)).2 = Except.ok profileResponse.body :=
  ⟨rfl, schedule_returns_body_on_success profileResponse
      { date := 0, remaining := 50, reset := 3 } rfl⟩

/-- C9: each verb wrapper depends on the transport only through the
corresponding transport method evaluated at exactly the argument list the verb
received: two transports whose matching method agrees at those arguments give
identical verb behaviour, so the arguments are forwarded unchanged and
payloads are not interpreted. -/
theorem verbs_forward_arguments_unchanged (rp rq : Transport) (args : List String)
    (hg : rp.get args = rq.get args) (hp : rp.put args = rq.put args)
    (hpo : rp.post args = rq.post args) (hdel : rp.delete args = rq.delete args) :
    RequestScheduler.get rp args = RequestScheduler.get rq args ∧
      RequestScheduler.put rp args = RequestScheduler.put rq args ∧
      RequestScheduler.post rp args = RequestScheduler.post rq args ∧
      RequestScheduler.delete rp args = RequestScheduler.delete rq args := by
  refine ⟨?_, ?_, ?_, ?_⟩
  · unfold RequestScheduler.get
    rw [hg]
  · unfold RequestScheduler.put
    rw [hp]
  · unfold RequestScheduler.post
    rw [hpo]
  · unfold RequestScheduler.delete
    rw [hdel]

/-- A transport returning an empty response for every call. -/
def alwaysOkTransport : Transport :=
  { get := fun _ => Except.ok {}, put := fun _ => Except.ok {},
    post := fun _ => Except.ok {}, delete := fun _ => Except.ok {} }

/-- A transport that differs from `alwaysOkTransport` on the empty argument
list but agrees with it on every non-empty one. -/
def failsOnEmptyTransport : Transport :=
  { get := fun args => if args.isEmpty then Except.error {} else Except.ok {},
    put := fun args => if args.isEmpty then Except.error {} else Except.ok {},
    post := fun args => if args.isEmpty then Except.error {} else Except.ok {},
    delete := fun args => if args.isEmpty then Except.error {} else Except.ok {} }

/-- Witness for C9: the two transports agree at `["/api/v1/users"]`, so all
four verb wrappers behave identically there. -/
theorem verbs_forward_arguments_unchanged_witness :
    alwaysOkTransport.get ["/api/v1/users"] = failsOnEmptyTransport.get ["/api/v1/users"] ∧
      (RequestScheduler.get alwaysOkTransport ["/api/v1/users"] =
          RequestScheduler.get failsOnEmptyTransport ["/api/v1/users"] ∧
        RequestScheduler.put alwaysOkTransport ["/api/v1/users"] =
          RequestScheduler.put failsOnEmptyTransport ["/api/v1/users"] ∧
        RequestScheduler.post alwaysOkTransport ["/api/v1/users"] =
          RequestScheduler.post failsOnEmptyTransport ["/api/v1/users"] ∧
        RequestScheduler.delete alwaysOkTransport ["/api/v1/users"] =
          RequestScheduler.delete failsOnEmptyTransport ["/api/v1/users"]) :=
  ⟨rfl, verbs_forward_arguments_unchanged alwaysOkTransport failsOnEmptyTransport
      ["/api/v1/users"] rfl rfl rfl rfl⟩

/-- C10: the estimator's result depends only on the three throttling header
values of the effective header object it inspects: two outcomes of any shape
(direct headers or embedded response) agreeing on `date`, `remaining` and
`reset` get the same delay, whatever their other headers, status or body. -/
theorem timeToNextRequest_depends_only_on_three_headers
    (o1 o2 : Outcome) (h1 h2 : Headers)
    (hh1 : headersOf o1 = Except.ok (some h1))
    (hh2 : headersOf o2 = Except.ok (some h2))
    (hdate : h1.date = h2.date) (hrem : h1.remaining = h2.remaining)
    (hreset : h1.reset = h2.reset) :
    timeToNextRequest o1 = timeToNextRequest o2 := by
  rw [timeToNextRequest_of_headersOf o1 h1 hh1,
    timeToNextRequest_of_headersOf o2 h2 hh2, hdate, hrem, hreset]

/-- A header object carrying the three throttling values plus an unrelated
extra header entry, used by the C10 witness. -/
def richHeaders : Headers :=
  { date := 0, remaining := 5, reset := 2,
    other := [("content-type", "application/json")] }

/-- First C10 witness input: a success-shaped outcome with direct headers,
an extra header entry, status 200 and a body. -/
def responseShapedOutcome : Outcome :=
  { headers := some richHeaders, status := 200, body := "payload" }

/-- Second C10 witness input: an error-shaped outcome with the same three
throttling values inside an embedded response, but different other headers,
status and body. -/
def errorShapedOutcome : Outcome :=
  { response := some (some { date := 0, remaining := 5, reset := 2 }),
    status := 429, body := "rate limited" }

/-- Witness for C10: the two differently-shaped outcomes above agree on the
three throttling headers, so the estimator computes the same delay. -/
theorem timeToNextRequest_depends_only_on_three_headers_witness :
    headersOf responseShapedOutcome = Except.ok (some richHeaders) ∧
      headersOf errorShapedOutcome =
        Except.ok (some { date := 0, remaining := 5, reset := 2 }) ∧
      timeToNextRequest responseShapedOutcome = timeToNextRequest errorShapedOutcome :=
  ⟨rfl, rfl, timeToNextRequest_depends_only_on_three_headers
      responseShapedOutcome errorShapedOutcome richHeaders
      { date := 0, remaining := 5, reset := 2 } rfl rfl rfl rfl rfl⟩

end StormpathMigration
